import Mathlib

/-!
# Legacy C++ exception notes: a shallow embedding

The repository is a set of teaching snippets (`src/2_exceptionMechanism.cpp`,
`src/3_standardException.cpp`, `src/4_selfAssessment.cpp`).  The snippets are
embedded as Lean functions over an explicit outcome type (normal return, raised
exception, process termination) and, for the stateful snippets, an explicit
world that is threaded through every statement.
-/

namespace LegacyException

/-! ## Exception objects and the class hierarchy of `3_standardException.cpp` -/

/-- Class types that occur as exception classes: the standard hierarchy listed in
`3_standardException.cpp` and the user classes of `2_exceptionMechanism.cpp`
(`MyError`, `YourError`, `Base`, `Derived`). -/
inductive Cls
  | std_exception
  | logic_error
  | invalid_argument
  | domain_error
  | length_error
  | out_of_range
  | runtime_error
  | range_error
  | overflow_error
  | underflow_error
  | bad_typeid
  | bad_cast
  | bad_alloc
  | bad_exception
  | MyError
  | YourError
  | Base
  | Derived
  deriving DecidableEq, Repr

/-- Direct public base class.  The standard classes follow the tree in
`3_standardException.cpp`; `class Base : public std::exception`,
`class Derived : public Base`; `MyError` and `YourError` have no base. -/
def Cls.parent : Cls → Option Cls
  | .std_exception => none
  | .logic_error => some .std_exception
  | .invalid_argument => some .logic_error
  | .domain_error => some .logic_error
  | .length_error => some .logic_error
  | .out_of_range => some .logic_error
  | .runtime_error => some .std_exception
  | .range_error => some .runtime_error
  | .overflow_error => some .runtime_error
  | .underflow_error => some .runtime_error
  | .bad_typeid => some .std_exception
  | .bad_cast => some .std_exception
  | .bad_alloc => some .std_exception
  | .bad_exception => some .std_exception
  | .MyError => none
  | .YourError => none
  | .Base => some .std_exception
  | .Derived => some .Base

/-- Walk up the chain of base classes, at most `fuel` steps. -/
def Cls.derivesFromAux : Nat → Cls → Cls → Bool
  | 0, c, b => decide (c = b)
  | fuel + 1, c, b =>
    if c = b then true
    else match c.parent with
      | none => false
      | some p => Cls.derivesFromAux fuel p b

/-- The class `c` is `b` or has `b` as a (public, unambiguous) base class.  The
hierarchy has depth two, so four steps reach every ancestor. -/
def Cls.derivesFrom (c b : Cls) : Bool := Cls.derivesFromAux 4 c b

/-- Non-class types that the snippets throw or catch. -/
inductive Prim
  | char
  | int
  | double
  deriving DecidableEq, Repr

/-- A thrown exception object: either an object of class type, carrying its
dynamic class and the string `what()` returns, or a value of fundamental
type (the payload is the value, for `double` an encoding of it). -/
inductive Thrown
  | obj (cls : Cls) (what : String)
  | prim (t : Prim) (value : Int)
  deriving DecidableEq, Repr

/-- The string returned by `e.what()`; only class objects have it. -/
def Thrown.what : Thrown → String
  | .obj _ m => m
  | .prim _ _ => ""

/-- The result of evaluating an expression or statement: it returns a value,
leaves by an exception, or the process is terminated (`std::terminate`,
`abort`). -/
inductive Outcome (α : Type)
  | ret (a : α)
  | threw (e : Thrown)
  | terminated
  deriving DecidableEq, Repr

/-- Sequencing of two computations: the second runs only when the first returns. -/
def Outcome.bind {α β : Type} (o : Outcome α) (k : α → Outcome β) : Outcome β :=
  match o with
  | .ret a => k a
  | .threw e => .threw e
  | .terminated => .terminated

/-! ## Integer conversions -/

/-- Result of `static_cast<char>(val)` for an `int`.  Whether plain `char` is
signed is implementation-defined, hence the flag; the conversion keeps the low
eight bits (two's complement). -/
def static_cast_char (charSigned : Bool) (val : Int) : Int :=
  if charSigned then (val + 128) % 256 - 128 else val % 256

/-- Implicit conversion of a `char` value to the return type `unsigned char`:
reduction modulo `2^8`. -/
def to_unsigned_char (c : Int) : Int := c % 256

/-! ## The three `ToChar` variants of `2_exceptionMechanism.cpp` -/

namespace Unchecked

/-- Lines 30-32: `return static_cast<char>(val);`. -/
def ToChar (charSigned : Bool) (val : Int) : Outcome Int :=
  .ret (to_unsigned_char (static_cast_char charSigned val))

end Unchecked

namespace Checked

/-- Lines 34-40: the variant with the runtime check `0 <= val && val <= 255`. -/
def ToChar (charSigned : Bool) (val : Int) : Outcome Int :=
  if !(decide (0 ≤ val) && decide (val ≤ 255)) then
    .threw (.obj .out_of_range "Fail : val range")
  else
    .ret (to_unsigned_char (static_cast_char charSigned val))

end Checked

/-- The `assert` macro of `4_selfAssessment.cpp`, lines 12-16.  With `NDEBUG`
it expands to `((void) 0)`; otherwise the source leaves it implementation
defined, and the usual behaviour is modelled: a false condition aborts the
process. -/
def assert (ndebug : Bool) (condition : Bool) : Outcome Unit :=
  if ndebug then .ret ()
  else if condition then .ret () else .terminated

namespace Diagnosed

/-- Lines 42-49: the variant with `assert(0 <= val && val < 256)` in front of
the runtime check `0 <= val && val < 256`. -/
def ToChar (ndebug : Bool) (charSigned : Bool) (val : Int) : Outcome Int :=
  (assert ndebug (decide (0 ≤ val) && decide (val < 256))).bind fun _ =>
    if !(decide (0 ≤ val) && decide (val < 256)) then
      .threw (.obj .out_of_range "Fail : val range")
    else
      .ret (to_unsigned_char (static_cast_char charSigned val))

end Diagnosed

/-- The caller's variables in the snippets of lines 51-70. -/
structure Vars where
  val : Int
  ch : Int
  deriving DecidableEq, Repr

/-- The statement `ch = ToChar(val);` (lines 57, 61, 66) with the checked
`ToChar`: the assignment happens only when the call returns; the pending
exception, if any, is returned next to the variables. -/
def assign_ch (charSigned : Bool) (st : Vars) : Outcome Unit × Vars :=
  match Checked.ToChar charSigned st.val with
  | .ret c => (.ret (), { st with ch := c })
  | .threw e => (.threw e, st)
  | .terminated => (.terminated, st)

/-! ## Handlers, `try`/`catch`, and the world threaded through statements -/

/-- The declared type of a `catch` clause (or an entry of a dynamic exception
specification): a fundamental type, a class type (by value or by reference),
or `...`. -/
inductive CatchTy
  | prim (t : Prim)
  | cls (c : Cls)
  | any
  deriving DecidableEq, Repr

/-- Handler matching: a class handler matches an object whose dynamic class is
that class or derives from it; a handler of fundamental type matches exactly
that type (no arithmetic conversion takes part); `...` matches everything. -/
def CatchTy.accepts : CatchTy → Thrown → Bool
  | .any, _ => true
  | .cls b, .obj c _ => c.derivesFrom b
  | .cls _, .prim _ _ => false
  | .prim t, .prim u _ => decide (t = u)
  | .prim _, .obj _ _ => false

/-- Position of the first handler, in declaration order, that matches. -/
def selectHandler : List CatchTy → Thrown → Option Nat
  | [], _ => none
  | t :: ts, e =>
    if t.accepts e then some 0
    else (selectHandler ts e).map (· + 1)

/-- The function installed as `std::unexpected` handler. -/
inductive UnexpectedHandler
  | default_terminate
  | MyUnexpetedHandler
  deriving DecidableEq, Repr

/-- Events recorded while a snippet runs (ghost state, used to say which
functions were entered and which `throw` expressions were evaluated). -/
inductive Event
  | call (name : String)
  | raise (e : Thrown)
  deriving DecidableEq, Repr

/-- Everything a statement can touch: what was written to `std::cout`, the
process-wide unexpected handler, and the event record. -/
structure World where
  out : String
  unexpected : UnexpectedHandler
  trace : List Event
  deriving DecidableEq, Repr

/-- A statement or call: from a world to an outcome and the world after it. -/
def Stmt (α : Type) : Type := World → Outcome α × World

/-- Normal completion with a value. -/
def Stmt.ret {α : Type} (a : α) : Stmt α := fun w => (.ret a, w)

/-- Sequencing of statements: the rest runs only when the first one returns. -/
def Stmt.seq {α β : Type} (s : Stmt α) (k : α → Stmt β) : Stmt β := fun w =>
  match s w with
  | (.ret a, w1) => k a w1
  | (.threw e, w1) => (.threw e, w1)
  | (.terminated, w1) => (.terminated, w1)

/-- A call of a function that touches no state. -/
def Stmt.lift {α : Type} (o : Outcome α) : Stmt α := fun w => (o, w)

/-- Entry into a named function (recorded in the trace). -/
def enter (name : String) : Stmt Unit := fun w =>
  (.ret (), { w with trace := w.trace ++ [.call name] })

/-- The expression `throw e` (recorded in the trace). -/
def throw_ {α : Type} (e : Thrown) : Stmt α := fun w =>
  (.threw e, { w with trace := w.trace ++ [.raise e] })

/-- The expression `throw;`: re-raises the exception being handled, the same
object; with no exception being handled it calls `std::terminate`. -/
def rethrow {α : Type} (current : Option Thrown) : Stmt α := fun w =>
  match current with
  | some e => (.threw e, w)
  | none => (.terminated, w)

/-- Output `std::cout << text`. -/
def cout (text : String) : Stmt Unit := fun w =>
  (.ret (), { w with out := w.out ++ text })

/-- Handler body at position `i`, if there is one. -/
def handlerAt {α : Type} : List (CatchTy × (Thrown → Stmt α)) → Nat → Option (Thrown → Stmt α)
  | [], _ => none
  | h :: _, 0 => some h.2
  | _ :: hs, i + 1 => handlerAt hs i

/-- The statement `try { body } catch (T1) { h1 } catch (T2) { h2 } ...`: when
the body leaves by an exception, the first matching handler runs with that
exception as the one being handled; with no matching handler the exception
leaves the statement. -/
def tryCatch {α : Type} (body : Stmt α) (handlers : List (CatchTy × (Thrown → Stmt α))) :
    Stmt α := fun w =>
  match body w with
  | (.threw e, w1) =>
    match selectHandler (handlers.map Prod.fst) e with
    | some i =>
      match handlerAt handlers i with
      | some h => h e w1
      | none => (.threw e, w1)
    | none => (.threw e, w1)
  | r => r

/-! ## Lines 72-88: handler sites -/

/-- Lines 83-88: the handlers after the `try` block, in declaration order:
`catch (const std::exception&) {}`, `catch (const Derived&) {}`,
`catch (const Base&) {}`. -/
def derivedBaseHandlers : List (CatchTy × (Thrown → Stmt Unit)) :=
  [ (.cls .std_exception, fun _ => Stmt.ret ()),
    (.cls .Derived, fun _ => Stmt.ret ()),
    (.cls .Base, fun _ => Stmt.ret ()) ]

/-! ## Lines 90-101: propagation and `throw;` -/

/-- Modelled from the spec: `std::string::substr(pos)` is library code, absent
from src/ (only the call on line 95 is there).  Spec section 4.1,
`SubstringSafe(s, start)`: "fails with an `OutOfRange` signal when
`start > length(s)`"; otherwise the characters from `start` on are returned.
The text of `what()` is left to the library, hence the parameter. -/
def substr (libWhat : String) (s : List Char) (pos : Nat) : Outcome (List Char) :=
  if pos > s.length then .threw (.obj .out_of_range libWhat)
  else .ret (s.drop pos)

/-- Lines 97-101: the handler `catch (const std::exception& e)` that prints
`e.what()` and a newline and re-raises with `throw;`, around any `try` body. -/
def rethrowSite {α : Type} (body : Stmt α) : Stmt α :=
  tryCatch body
    [ (.cls .std_exception, fun e =>
        (cout e.what).seq fun _ =>
        (cout "\n").seq fun _ =>
        rethrow (some e)) ]

/-- Lines 94-101: the `try` block with `std::string("abc").substr(10)` inside
the re-raising handler. -/
def substrSnippet (libWhat : String) : Stmt Unit :=
  rethrowSite ((Stmt.lift (substr libWhat ['a', 'b', 'c'] 10)).seq fun _ => Stmt.ret ())

/-! ## Lines 103-125: stack unwinding -/

namespace Unwinding

/-- Lines 106-109: `int f(int val)` throws `std::out_of_range("Fail : f()")`;
the `return 0;` after it is never reached. -/
def f (_val : Int) : Stmt Int :=
  (enter "f").seq fun _ =>
  (throw_ (.obj .out_of_range "Fail : f()") : Stmt Unit).seq fun _ =>
  Stmt.ret 0

/-- Lines 111-114: `int g(int val)` throws `std::out_of_range("Fail : g()")`. -/
def g (_val : Int) : Stmt Int :=
  (enter "g").seq fun _ =>
  (throw_ (.obj .out_of_range "Fail : g()") : Stmt Unit).seq fun _ =>
  Stmt.ret 0

/-- Lines 116-125: `h` calls `f(a)` and then `g(a)` inside a `try` block with
the single handler `catch (std::out_of_range& e) {}`. -/
def h : Stmt Unit :=
  (enter "h").seq fun _ =>
  tryCatch
    (let a : Int := 10
     (f a).seq fun _b =>
     (g a).seq fun _c =>
     Stmt.ret ())
    [ (.cls .out_of_range, fun _ => Stmt.ret ()) ]

end Unwinding

/-! ## Lines 127-155: dynamic exception specification and `std::unexpected` -/

namespace DynamicSpec

/-- Lines 127-129: the unexpected handler whose body is `throw;`.  It runs
while the exception that violated the specification is being handled. -/
def MyUnexpetedHandler (current : Option Thrown) : Stmt Unit :=
  rethrow current

/-- The call `std::unexpected()` made by the runtime for the escaping exception
`e`: runs the installed handler; the default handler calls `std::terminate`. -/
def unexpected (e : Thrown) : Stmt Unit := fun w =>
  match w.unexpected with
  | .default_terminate => (.terminated, w)
  | .MyUnexpetedHandler => MyUnexpetedHandler (some e) w

/-- The exception `e` is allowed by the specification `throw(spec)`. -/
def allowed (spec : List CatchTy) (e : Thrown) : Bool :=
  spec.any fun t => t.accepts e

/-- A function body under the dynamic exception specification `throw(spec)`.
An exception the specification allows leaves the function.  Otherwise
`std::unexpected()` is called; if the handler throws an exception the
specification allows, that one leaves the function; if it throws one that is
not allowed, it is replaced by a `std::bad_exception` object when the
specification lists `std::bad_exception`, and `std::terminate` is called when
it does not.  A handler that returns ends in termination as well.
`badWhat` is the `what()` text of the replacement object. -/
def withThrowSpec {α : Type} (spec : List CatchTy) (badWhat : String) (body : Stmt α) :
    Stmt α := fun w =>
  match body w with
  | (.threw e, w1) =>
    if allowed spec e then (.threw e, w1)
    else
      match unexpected e w1 with
      | (.threw e2, w2) =>
        if allowed spec e2 then (.threw e2, w2)
        else if spec.contains (.cls .bad_exception) then
          (.threw (.obj .bad_exception badWhat), w2)
        else (.terminated, w2)
      | (_, w2) => (.terminated, w2)
  | r => r

/-- Lines 131-133: `void f() throw(int, double, std::bad_exception)` whose body
is `throw 'e';`. -/
def f (badWhat : String) : Stmt Unit :=
  withThrowSpec [.prim .int, .prim .double, .cls .bad_exception] badWhat
    ((enter "f").seq fun _ => throw_ (.prim .char ('e'.toNat : Nat)))

/-- The library call `std::set_unexpected(h)`: installs `h`, returns the handler
installed before. -/
def set_unexpected (h : UnexpectedHandler) : Stmt UnexpectedHandler := fun w =>
  (.ret w.unexpected, { w with unexpected := h })

/-- Lines 139-153: the handlers `catch (char)`, `catch (int)`, `catch (double)`,
`catch (std::bad_exception&)`, `catch (...)`, each printing its line
(`std::endl` is written as a newline). -/
def handlers : List (CatchTy × (Thrown → Stmt Unit)) :=
  [ (.prim .char, fun _ => cout "throw : char\n"),
    (.prim .int, fun _ => cout "throw : int\n"),
    (.prim .double, fun _ => cout "throw : double\n"),
    (.cls .bad_exception, fun _ => cout "throw : bad_exception\n"),
    (.any, fun _ => cout "throw : ...\n") ]

/-- Lines 135-155: install `MyUnexpetedHandler` (the source spells the name
`MyUnexpectedHandler` at the call), run `f()` inside the `try` block, restore
the old handler. -/
def snippet (badWhat : String) : Stmt Unit :=
  (set_unexpected .MyUnexpetedHandler).seq fun old =>
  (tryCatch (f badWhat) handlers).seq fun _ =>
  (set_unexpected old).seq fun _ =>
  Stmt.ret ()

end DynamicSpec

/-- A world at program start: nothing printed, the default unexpected handler,
no events. -/
def World.initial : World := { out := "", unexpected := .default_terminate, trace := [] }

/-! ## Shared lemmas -/

/-- The two conversions together keep the low eight bits, whatever the
signedness of plain `char`. -/
theorem cast_eq_mod (charSigned : Bool) (val : Int) :
    to_unsigned_char (static_cast_char charSigned val) = val % 256 := by
  unfold to_unsigned_char static_cast_char
  cases charSigned
  · simp
  · simp; omega

/-- On `[0, 255]` the two conversions give the value back. -/
theorem cast_eq_self (charSigned : Bool) (val : Int) (h0 : 0 ≤ val) (h1 : val ≤ 255) :
    to_unsigned_char (static_cast_char charSigned val) = val := by
  rw [cast_eq_mod]; omega

/-- The checked `ToChar` as a case distinction on the range. -/
theorem checked_cases (charSigned : Bool) (val : Int) :
    Checked.ToChar charSigned val =
      if 0 ≤ val ∧ val ≤ 255 then .ret val
      else .threw (.obj .out_of_range "Fail : val range") := by
  unfold Checked.ToChar
  by_cases h : 0 ≤ val ∧ val ≤ 255
  · simp [h, cast_eq_self charSigned val h.1 h.2]
  · rw [if_neg h]
    simp only [not_and_or, not_le] at h
    rcases h with h | h
    · have : ¬ (0 ≤ val) := by omega
      simp [this]
    · have : ¬ (val ≤ 255) := by omega
      simp [this]

/-- Every class object that derives from `std::exception` is taken by a
`catch (const std::exception&)` placed first. -/
theorem select_first_std (rest : List CatchTy) (c : Cls) (m : String)
    (hc : c.derivesFrom .std_exception = true) :
    selectHandler (.cls .std_exception :: rest) (.obj c m) = some 0 := by
  simp [selectHandler, CatchTy.accepts, hc]

/-! ## The claims -/

/-- C1: for every integer `v` with `0 <= v <= 255` the range-checked `ToChar(v)`
returns normally, and the returned `unsigned char` has the numeric value `v`
(whatever the signedness of plain `char`). -/
theorem ToChar_returns_in_range (charSigned : Bool) (v : Int) (h0 : 0 ≤ v) (h1 : v ≤ 255) :
    Checked.ToChar charSigned v = .ret v := by
  rw [checked_cases, if_pos ⟨h0, h1⟩]

/-- Witness for C1 at the source's own test, `ToChar('A' + 1) == 'B'`. -/
theorem ToChar_returns_in_range_witness :
    (0 : Int) ≤ ('A'.toNat : Int) + 1 ∧ ('A'.toNat : Int) + 1 ≤ 255 ∧
      Checked.ToChar true (('A'.toNat : Int) + 1) = .ret ('B'.toNat : Int) :=
  ⟨by decide, by decide, ToChar_returns_in_range true (('A'.toNat : Int) + 1) (by decide) (by decide)⟩

/-- C2: the range-checked `ToChar(v)` raises `std::out_of_range` with the message
"Fail : val range" if and only if `v < 0` or `v > 255`, and raises nothing else;
`ToChar(256)` raises, `ToChar(255)` and `ToChar(0)` return; the statement
`ch = ToChar(val);` leaves the caller's variables exactly as they were when the
call fails. -/
theorem ToChar_raises_iff_out_of_range (charSigned : Bool) (v ch : Int) :
    (Checked.ToChar charSigned v = .threw (.obj .out_of_range "Fail : val range")
        ↔ (v < 0 ∨ v > 255)) ∧
    ((∃ e, Checked.ToChar charSigned v = .threw e) ↔ (v < 0 ∨ v > 255)) ∧
    Checked.ToChar charSigned 256 = .threw (.obj .out_of_range "Fail : val range") ∧
    Checked.ToChar charSigned 255 = .ret 255 ∧
    Checked.ToChar charSigned 0 = .ret 0 ∧
    assign_ch charSigned { val := v, ch := ch } =
      (if 0 ≤ v ∧ v ≤ 255 then (.ret (), { val := v, ch := v })
       else (.threw (.obj .out_of_range "Fail : val range"), { val := v, ch := ch })) := by
  refine ⟨?_, ?_, ?_, ?_, ?_, ?_⟩
  · rw [checked_cases]
    by_cases h : 0 ≤ v ∧ v ≤ 255
    · rw [if_pos h]
      constructor
      · intro hc; cases hc
      · intro hv; omega
    · rw [if_neg h]
      constructor
      · intro _; omega
      · intro _; rfl
  · rw [checked_cases]
    by_cases h : 0 ≤ v ∧ v ≤ 255
    · rw [if_pos h]
      constructor
      · rintro ⟨e, hc⟩; cases hc
      · intro hv; omega
    · rw [if_neg h]
      constructor
      · intro _; omega
      · intro _; exact ⟨_, rfl⟩
  · rw [checked_cases]; rfl
  · rw [checked_cases]; rfl
  · rw [checked_cases]; rfl
  · unfold assign_ch
    simp only []
    rw [checked_cases]
    by_cases h : 0 ≤ v ∧ v ≤ 255
    · rw [if_pos h, if_pos h]
    · rw [if_neg h, if_neg h]

/-- C3: taking the substring of `s` from `start` fails, with an out-of-range
signal, exactly when `start > length(s)`; for `start <= length(s)`, also for
`start = length(s)`, it returns the rest of the string; and
`std::string("abc").substr(10)` raises. -/
theorem substr_fails_iff_start_beyond_length (libWhat : String) (s : List Char) (start : Nat) :
    ((∃ e, substr libWhat s start = .threw e) ↔ start > s.length) ∧
    substr libWhat s start =
      (if start > s.length then .threw (.obj .out_of_range libWhat)
       else .ret (s.drop start)) ∧
    substr libWhat s s.length = .ret [] ∧
    substr libWhat ['a', 'b', 'c'] 10 = .threw (.obj .out_of_range libWhat) := by
  refine ⟨?_, rfl, ?_, rfl⟩
  · unfold substr
    by_cases h : start > s.length
    · rw [if_pos h]; exact ⟨fun _ => h, fun _ => ⟨_, rfl⟩⟩
    · rw [if_neg h]
      constructor
      · rintro ⟨e, hc⟩; cases hc
      · intro hs; exact absurd hs h
  · unfold substr
    simp

/-- C4: whatever exception `e` leaves the `try` body, the site whose handler
catches `const std::exception&` and re-raises with `throw;` hands the caller
that same `e`, dynamic class and message included; when the handler matches
`e` (an object of a class derived from `std::exception`), it did run before
re-raising: it printed `e.what()` and a newline; otherwise `e` passes the site
untouched. -/
theorem rethrow_preserves_exception {α : Type} (body : Stmt α) (w w1 : World) (e : Thrown)
    (hbody : body w = (.threw e, w1)) :
    (rethrowSite body w).1 = .threw e ∧
    (rethrowSite body w).2 =
      (if (CatchTy.cls .std_exception).accepts e then
         { w1 with out := w1.out ++ e.what ++ "\n" }
       else w1) := by
  unfold rethrowSite tryCatch
  rw [hbody]
  by_cases hc : (CatchTy.cls .std_exception).accepts e = true
  · simp [selectHandler, hc, handlerAt, Stmt.seq, cout, rethrow]
  · simp [selectHandler, hc]

/-- Witness for C4 at the source's own `try` body, `std::string("abc").substr(10)`. -/
theorem rethrow_preserves_exception_witness :
    ((Stmt.lift (substr "pos > size" ['a', 'b', 'c'] 10)).seq fun _ => Stmt.ret ()) World.initial
        = (.threw (.obj .out_of_range "pos > size"), World.initial) ∧
    (rethrowSite ((Stmt.lift (substr "pos > size" ['a', 'b', 'c'] 10)).seq
        fun _ => Stmt.ret ()) World.initial).1
      = .threw (.obj .out_of_range "pos > size") :=
  ⟨rfl, (rethrow_preserves_exception
      ((Stmt.lift (substr "pos > size" ['a', 'b', 'c'] 10)).seq fun _ => Stmt.ret ())
      World.initial World.initial (.obj .out_of_range "pos > size") rfl).1⟩

/-- C5: at the site declared `[std::exception, Derived, Base]` the first handler
in declaration order that matches is selected; every raised object whose class
is `std::exception` or derives from it (so also `Derived` and `Base`) selects
the `std::exception` handler, and there is no raised exception at all that
selects the `Derived` handler or the `Base` handler. -/
theorem derived_base_handlers_unreachable (e : Thrown) :
    derivedBaseHandlers.map Prod.fst = [.cls .std_exception, .cls .Derived, .cls .Base] ∧
    (∀ c m, e = .obj c m → c.derivesFrom .std_exception = true →
      selectHandler (derivedBaseHandlers.map Prod.fst) e = some 0) ∧
    selectHandler (derivedBaseHandlers.map Prod.fst) e ≠ some 1 ∧
    selectHandler (derivedBaseHandlers.map Prod.fst) e ≠ some 2 ∧
    (∀ m, selectHandler (derivedBaseHandlers.map Prod.fst) (.obj .Derived m) = some 0) ∧
    (∀ m, selectHandler (derivedBaseHandlers.map Prod.fst) (.obj .Base m) = some 0) := by
  have hmap : derivedBaseHandlers.map Prod.fst
      = [.cls .std_exception, .cls .Derived, .cls .Base] := rfl
  rw [hmap]
  refine ⟨rfl, ?_, ?_, ?_, ?_, ?_⟩
  · intro c m he hc
    subst he
    exact select_first_std _ c m hc
  · cases e with
    | prim t v => simp [selectHandler, CatchTy.accepts]
    | obj c m => cases c <;> simp [selectHandler, CatchTy.accepts, Cls.derivesFrom,
        Cls.derivesFromAux, Cls.parent]
  · cases e with
    | prim t v => simp [selectHandler, CatchTy.accepts]
    | obj c m => cases c <;> simp [selectHandler, CatchTy.accepts, Cls.derivesFrom,
        Cls.derivesFromAux, Cls.parent]
  · intro m; exact select_first_std _ _ m rfl
  · intro m; exact select_first_std _ _ m rfl

/-- Witness for C5: a raised `Derived` object selects the first handler. -/
theorem derived_base_handlers_unreachable_witness :
    Cls.Derived.derivesFrom .std_exception = true ∧
    selectHandler (derivedBaseHandlers.map Prod.fst) (.obj .Derived "") = some 0 :=
  ⟨by decide,
   (derived_base_handlers_unreachable (.obj .Derived "")).2.1 .Derived "" rfl (by decide)⟩

/-- C6: with `NDEBUG` defined the `ToChar` variant that has both the `assert`
and the runtime check equals the assert-free checked variant on every integer:
it returns `val` for every `val` in `[0, 255]` and raises `std::out_of_range`
for every other `val`. -/
theorem ToChar_assert_ndebug_eq_checked (charSigned : Bool) (val : Int) :
    Diagnosed.ToChar true charSigned val = Checked.ToChar charSigned val ∧
    Diagnosed.ToChar true charSigned val =
      (if 0 ≤ val ∧ val ≤ 255 then .ret val
       else .threw (.obj .out_of_range "Fail : val range")) := by
  have heq : Diagnosed.ToChar true charSigned val = Checked.ToChar charSigned val := by
    unfold Diagnosed.ToChar Checked.ToChar assert
    have hiff : (decide (val < 256)) = (decide (val ≤ 255)) := by
      apply decide_eq_decide.mpr
      omega
    simp only [if_true, Outcome.bind, hiff]
  exact ⟨heq, heq.trans (checked_cases charSigned val)⟩

/-- C7: in every execution of `h()`, from any world, `f(a)` raises
`std::out_of_range("Fail : f()")`, the next thing that happens is `h`'s handler
(the only events are the entries into `h` and `f` and that one `throw`), `g` is
never entered and no exception with the message "Fail : g()" is raised, and `h`
returns normally with nothing else changed. -/
theorem h_catches_f_and_skips_g (w : World) :
    (Unwinding.f 10 { w with trace := w.trace ++ [.call "h"] }).1
      = .threw (.obj .out_of_range "Fail : f()") ∧
    Unwinding.h w =
      (.ret (), { w with trace := w.trace ++
        [.call "h", .call "f", .raise (.obj .out_of_range "Fail : f()")] }) ∧
    Event.call "g" ∉
      [Event.call "h", .call "f", .raise (.obj .out_of_range "Fail : f()")] ∧
    Event.raise (.obj .out_of_range "Fail : g()") ∉
      [Event.call "h", .call "f", .raise (.obj .out_of_range "Fail : f()")] := by
  refine ⟨rfl, ?_, by decide, by decide⟩
  simp [Unwinding.h, Unwinding.f, tryCatch, Stmt.seq, enter, throw_, selectHandler,
    CatchTy.accepts, Cls.derivesFrom, Cls.derivesFromAux, handlerAt, Stmt.ret]

/-- C8: with `MyUnexpetedHandler` (body `throw;`) installed, the call of `f()`
declared `throw(int, double, std::bad_exception)`, whose body throws the char
`'e'`, leaves by a `std::bad_exception` object; of the handlers
`[char, int, double, bad_exception&, ...]` it selects the fourth, the
`bad_exception` handler, so the snippet prints "throw : bad_exception", returns
normally and restores the unexpected handler it found. -/
theorem unexpected_rethrow_yields_bad_exception (badWhat : String) (w : World) :
    (DynamicSpec.f badWhat { w with unexpected := .MyUnexpetedHandler }).1
      = .threw (.obj .bad_exception badWhat) ∧
    DynamicSpec.handlers.map Prod.fst
      = [.prim .char, .prim .int, .prim .double, .cls .bad_exception, .any] ∧
    selectHandler (DynamicSpec.handlers.map Prod.fst) (.obj .bad_exception badWhat) = some 3 ∧
    DynamicSpec.snippet badWhat w =
      (.ret (), { w with
        out := w.out ++ "throw : bad_exception\n",
        trace := w.trace ++ [.call "f", .raise (.prim .char ('e'.toNat : Nat))] }) := by
  refine ⟨?_, rfl, ?_, ?_⟩
  · simp [DynamicSpec.f, DynamicSpec.withThrowSpec, DynamicSpec.allowed, DynamicSpec.unexpected,
      DynamicSpec.MyUnexpetedHandler, rethrow, Stmt.seq, enter, throw_, CatchTy.accepts]
  · simp [DynamicSpec.handlers, selectHandler, CatchTy.accepts, Cls.derivesFrom,
      Cls.derivesFromAux]
  · simp [DynamicSpec.snippet, DynamicSpec.set_unexpected, DynamicSpec.f,
      DynamicSpec.withThrowSpec, DynamicSpec.allowed, DynamicSpec.unexpected,
      DynamicSpec.MyUnexpetedHandler, DynamicSpec.handlers, rethrow, Stmt.seq, enter, throw_,
      CatchTy.accepts, tryCatch, selectHandler, handlerAt, cout, Stmt.ret, Cls.derivesFrom,
      Cls.derivesFromAux]

/-- C9, the code at the claim's input: the exception that
`std::string("abc").substr(10)` raises, and that the handler's `throw;` passes
on to the caller, is of class `std::out_of_range`, which neither is
`std::length_error` nor derives from it. -/
theorem substr_snippet_raises_out_of_range (libWhat : String) (w : World) :
    substr libWhat ['a', 'b', 'c'] 10 = .threw (.obj .out_of_range libWhat) ∧
    (substrSnippet libWhat w).1 = .threw (.obj .out_of_range libWhat) ∧
    (substrSnippet libWhat w).1 ≠ .threw (.obj .length_error libWhat) ∧
    Cls.out_of_range.derivesFrom .length_error = false := by
  have hs : (substrSnippet libWhat w).1 = .threw (.obj .out_of_range libWhat) := by
    simp [substrSnippet, rethrowSite, tryCatch, Stmt.lift, Stmt.seq, substr, selectHandler,
      CatchTy.accepts, Cls.derivesFrom, Cls.derivesFromAux, Cls.parent, handlerAt, cout, rethrow]
  refine ⟨rfl, hs, ?_, by decide⟩
  rw [hs]
  intro hc
  cases hc

/-- C10: the unchecked `ToChar` never fails and returns `val mod 2^8` for every
integer `val`; on `[0, 255]` it agrees with the range-checked `ToChar`; for
every other `val` it returns a byte different from `val` where the checked
variant raises; `256` gives `0` and `-1` gives `255`. -/
theorem unchecked_ToChar_wraps (charSigned : Bool) (val : Int) :
    Unchecked.ToChar charSigned val = .ret (val % 256) ∧
    0 ≤ val % 256 ∧ val % 256 < 256 ∧
    (if 0 ≤ val ∧ val ≤ 255 then
       Unchecked.ToChar charSigned val = Checked.ToChar charSigned val
     else
       val % 256 ≠ val ∧
       Checked.ToChar charSigned val = .threw (.obj .out_of_range "Fail : val range")) ∧
    Unchecked.ToChar charSigned 256 = .ret 0 ∧
    Unchecked.ToChar charSigned (-1) = .ret 255 := by
  have hu : ∀ x : Int, Unchecked.ToChar charSigned x = .ret (x % 256) := by
    intro x
    unfold Unchecked.ToChar
    rw [cast_eq_mod]
  refine ⟨hu val, by omega, by omega, ?_, ?_, ?_⟩
  · by_cases h : 0 ≤ val ∧ val ≤ 255
    · rw [if_pos h, hu, checked_cases, if_pos h]
      congr 1
      omega
    · rw [if_neg h, checked_cases, if_neg h]
      refine ⟨?_, rfl⟩
      intro hm
      apply h
      omega
  · rw [hu]; rfl
  · rw [hu]; rfl

end LegacyException
